import Mathlib

/-!
Verification of the ewatercycle-hbv plugin (src/ewatercycle_HBV/model.py and
src/ewatercycle_HBV/forcing.py) against its specification.

The development shallowly embeds the two source files:

* `model.py`: the class-level configuration dict `HBVMethods._config`, the
  method `_make_cfg_file` (validation of `parameters` / `initial_storage`,
  comma-joining, forcing-path resolution, JSON file write) and the
  `parameters` / `states` accessor properties.
* `forcing.py`: `HBVForcing.to_xarray` (the None-check on directory /
  forcing_file and the row-to-dataset transformation).

Python scalar values that the code only ever passes through `str(...)` and
`",".join(...)` are modelled by their decimal string renderings (`str` of a
Python int or float is a non-empty string over the alphabet
`0-9 + - . e E i n f a` and never contains a comma).  Numeric file contents
parsed by `np.loadtxt` are modelled over `ℚ`.
-/

/-! ### Python comma split / join

`",".join(strs)` and `s.split(',')` from `model.py`, embedded at the level of
character lists (a Python `str` is a sequence of characters).  Python's
`split` on an empty string returns `['']`; on `"a,"` it returns `['a','']`.
-/

/-- Python `s.split(',')` on a character list: splits at every comma,
keeping empty segments (`"".split(',') == ['']`). -/
def splitCommaChars : List Char → List (List Char)
  | [] => [[]]
  | c :: cs =>
    let rest := splitCommaChars cs
    if c = ',' then [] :: rest
    else (c :: rest.headI) :: rest.tail

/-- Python `",".join(gs)` on character lists. -/
def joinCommaChars : List (List Char) → List Char
  | [] => []
  | [g] => g
  | g :: gs => g ++ ',' :: joinCommaChars gs

/-- Python `s.split(',')` for `String`. -/
def pySplitComma (s : String) : List String :=
  (splitCommaChars s.data).map String.mk

/-- Python `",".join(xs)` for `String`. -/
def pyJoinComma (xs : List String) : String :=
  String.mk (joinCommaChars (xs.map String.data))

theorem splitCommaChars_ne_nil (cs : List Char) : splitCommaChars cs ≠ [] := by
  cases cs with
  | nil => simp [splitCommaChars]
  | cons c cs =>
    by_cases hc : c = ',' <;> simp [splitCommaChars, hc]

theorem splitCommaChars_append (g t : List Char) (hg : ',' ∉ g)
    (h : List Char) (r : List (List Char)) (ht : splitCommaChars t = h :: r) :
    splitCommaChars (g ++ t) = (g ++ h) :: r := by
  induction g with
  | nil => simpa using ht
  | cons c g ih =>
    have hc : c ≠ ',' := fun e => hg (by simp [e])
    have hg' : ',' ∉ g := fun m => hg (List.mem_cons_of_mem _ m)
    have hrec := ih hg'
    simp [splitCommaChars, hc, hrec]

/-- Round trip: joining comma-free segments with `","` and re-splitting
recovers the segments. -/
theorem splitCommaChars_joinCommaChars (gs : List (List Char)) (hne : gs ≠ [])
    (hc : ∀ g ∈ gs, ',' ∉ g) :
    splitCommaChars (joinCommaChars gs) = gs := by
  induction gs with
  | nil => exact absurd rfl hne
  | cons g gs ih =>
    cases gs with
    | nil =>
      have h0 : splitCommaChars ([] : List Char) = [] :: [] := by
        simp [splitCommaChars]
      have := splitCommaChars_append g [] (hc g (by simp)) [] [] h0
      simpa [joinCommaChars] using this
    | cons g' gs' =>
      have ih' := ih (by simp) (fun x hx => hc x (List.mem_cons_of_mem _ hx))
      have hsplit : splitCommaChars (',' :: joinCommaChars (g' :: gs'))
          = [] :: g' :: gs' := by
        simp [splitCommaChars, ih']
      have := splitCommaChars_append g (',' :: joinCommaChars (g' :: gs'))
        (hc g (by simp)) [] (g' :: gs') hsplit
      simpa [joinCommaChars] using this

theorem string_mk_data (s : String) : String.mk s.data = s := rfl

/-- Round trip at `String` level: `pyJoinComma` then `pySplitComma` is the
identity on non-empty lists of comma-free strings. -/
theorem pySplitComma_pyJoinComma (xs : List String) (hne : xs ≠ [])
    (hc : ∀ s ∈ xs, ',' ∉ s.data) :
    pySplitComma (pyJoinComma xs) = xs := by
  unfold pySplitComma pyJoinComma
  have hmapne : xs.map String.data ≠ [] := by
    simpa using hne
  have hmapc : ∀ g ∈ xs.map String.data, ',' ∉ g := by
    intro g hg
    rcases List.mem_map.mp hg with ⟨s, hs, rfl⟩
    exact hc s hs
  rw [show (String.mk (joinCommaChars (xs.map String.data))).data
      = joinCommaChars (xs.map String.data) from rfl]
  rw [splitCommaChars_joinCommaChars _ hmapne hmapc]
  rw [List.map_map]
  have : (String.mk ∘ String.data) = id := by
    funext s
    exact string_mk_data s
  rw [this, List.map_id]

/-! ### Numeric token alphabet

`str` of a Python int or float produces a non-empty string over the
characters `0-9 + - . e E i n f a` (digits, sign, decimal point, exponent
marker, and the letters of `inf` / `nan`); in particular it never contains a
comma. -/

/-- Characters that can occur in the decimal rendering of a Python number. -/
def numChar (c : Char) : Bool :=
  (('0' ≤ c && c ≤ '9') || c = '-' || c = '+' || c = '.' ||
    c = 'e' || c = 'E' || c = 'i' || c = 'n' || c = 'f' || c = 'a')

/-- A numeric token: non-empty and drawn from the numeric alphabet. -/
def isNumToken (s : String) : Bool :=
  !s.data.isEmpty && s.data.all numChar

theorem isNumToken_no_comma (s : String) (h : isNumToken s = true) :
    ',' ∉ s.data := by
  intro hm
  simp only [isNumToken, Bool.and_eq_true] at h
  have := List.all_eq_true.mp h.2 ',' hm
  simp [numChar] at this

/-! ### Configuration model (`model.py`)

`HBVMethods._config` is a Python dict with five fixed keys.  Its values are
strings except transiently inside `_make_cfg_file`, where `parameters` and
`initial_storage` hold the raw lists before being comma-joined.  `CfgVal`
distinguishes the two shapes; list elements are modelled by their `str`
renderings (the only operation the code applies to them). -/

inductive CfgVal where
  | str (s : String)
  | vals (xs : List String)
deriving DecidableEq, Repr

/-- The five-key configuration dict `HBVMethods._config`, field order matching
the key insertion order of the class-level literal. -/
structure Config where
  precipitation_file : CfgVal
  potential_evaporation_file : CfgVal
  mean_temperature_file : CfgVal
  parameters : CfgVal
  initial_storage : CfgVal
deriving DecidableEq, Repr

/-- The class-level initial value of `_config`: every value is `""`. -/
def initialConfig : Config :=
  { precipitation_file := .str ""
    potential_evaporation_file := .str ""
    mean_temperature_file := .str ""
    parameters := .str ""
    initial_storage := .str "" }

/-- `",".join(str(el) for el in v)`: iterating a list yields its elements
(whose `str` renderings the model already stores); iterating a string yields
its characters. -/
def joinCfgVal : CfgVal → String
  | .vals xs => pyJoinComma xs
  | .str s => pyJoinComma (s.data.map fun c => String.mk [c])

/-- The canonical parameter names (module-level `HBV_PARAMS`). -/
def HBV_PARAMS : List String :=
  ["Imax", "Ce", "Sumax", "Beta", "Pmax", "Tlag", "Kf", "Ks", "FM"]

/-- The canonical state names (module-level `HBV_STATES`). -/
def HBV_STATES : List String :=
  ["Si", "Su", "Sf", "Ss", "Sp"]

/-- The forcing object referenced by `_make_cfg_file`: its directory and the
file names it resolves for `pr`, `evspsblpot` and `tas`. -/
structure ModelForcing where
  directory : String
  pr : String
  evspsblpot : String
  tas : String
deriving DecidableEq, Repr

/-- `pathlib`'s `/` join, as used on the forcing directory and `_cfg_dir`. -/
def pathJoin (d f : String) : String := d ++ "/" ++ f

/-- Python errors raised by the embedded code (all raise sites in the two
source files raise `ValueError`; the spec's taxonomy labels them
`ValidationError` / `ConfigurationError` by site). -/
inductive PyError where
  | valueError (msg : String)
deriving DecidableEq, Repr

/-- The keyword arguments `_make_cfg_file(**kwargs)` inspects. -/
structure MakeCfgArgs where
  parameters : Option (List String)
  initial_storage : Option (List String)
deriving DecidableEq, Repr

/-- A file written to disk: its path and full contents. -/
structure FileWrite where
  path : String
  content : String
deriving DecidableEq, Repr

/-- Outcome of one `_make_cfg_file` call: the configuration dict after the
call (the dict object is mutated in place, also on some error paths), the
list of file writes the call performed, and the returned path or the raised
error. -/
structure CfgOutcome where
  config : Config
  writes : List FileWrite
  result : Except PyError String
deriving Repr

def paramsMissingMsg : String :=
  "The model needs the parameters argument, consisting of 9 parameters;\n   [Imax, Ce, Sumax, Beta, Pmax, Tlag, Kf, Ks, FM]"

def paramsLengthMsg : String := "Incorrect number of parameters provided."

def storageLengthMsg : String := "The model needs 5 initial storage terms."

/-- The hexadecimal digit characters used by `json.dumps` escapes
(lowercase). -/
def hexDigit (n : Nat) : Char :=
  if n < 10 then Char.ofNat ('0'.toNat + n) else Char.ofNat ('a'.toNat + (n - 10))

/-- `\uXXXX` escape for a code unit. -/
def uEscape (n : Nat) : List Char :=
  ['\\', 'u', hexDigit (n / 4096 % 16), hexDigit (n / 256 % 16),
    hexDigit (n / 16 % 16), hexDigit (n % 16)]

/-- How `json.dumps` (default `ensure_ascii=True`) renders one character of a
string value. -/
def jsonEscapeChar (c : Char) : List Char :=
  if c = '"' then ['\\', '"']
  else if c = '\\' then ['\\', '\\']
  else if c = '\n' then ['\\', 'n']
  else if c = '\t' then ['\\', 't']
  else if c = '\r' then ['\\', 'r']
  else if c.toNat = 8 then ['\\', 'b']
  else if c.toNat = 12 then ['\\', 'f']
  else if c.toNat < 32 then uEscape c.toNat
  else if c.toNat < 127 then [c]
  else if c.toNat < 65536 then uEscape c.toNat
  else uEscape (55296 + (c.toNat - 65536) / 1024) ++
    uEscape (56320 + (c.toNat - 65536) % 1024)

/-- A JSON string literal for `s`, as `json.dumps` renders it. -/
def jsonStr (s : String) : String :=
  String.mk ('"' :: (s.data.map jsonEscapeChar).flatten ++ ['"'])

/-- `json.dumps(self._config, indent=4)` at the write site, where all five
values are strings: a 4-space-indented object with exactly the five keys in
insertion order. -/
def jsonDumpConfig (p pe mt pars st : String) : String :=
  "\x7b\n    \"precipitation_file\": " ++ jsonStr p ++
    ",\n    \"potential_evaporation_file\": " ++ jsonStr pe ++
    ",\n    \"mean_temperature_file\": " ++ jsonStr mt ++
    ",\n    \"parameters\": " ++ jsonStr pars ++
    ",\n    \"initial_storage\": " ++ jsonStr st ++ "\n\x7d"

/-- The tail of `_make_cfg_file` after all validation has passed: comma-join
`initial_storage` and `parameters`, resolve the three forcing paths, write
`HBV_config.json` into `_cfg_dir`, and return the written path. -/
def writeCfg (f : ModelForcing) (cfgDir : String) (cfg : Config) : CfgOutcome :=
  let stStr := joinCfgVal cfg.initial_storage
  let psStr := joinCfgVal cfg.parameters
  let pFile := pathJoin f.directory f.pr
  let peFile := pathJoin f.directory f.evspsblpot
  let mtFile := pathJoin f.directory f.tas
  let cfgFile := pathJoin cfgDir "HBV_config.json"
  { config :=
      { precipitation_file := .str pFile
        potential_evaporation_file := .str peFile
        mean_temperature_file := .str mtFile
        parameters := .str psStr
        initial_storage := .str stStr }
    writes := [⟨cfgFile, jsonDumpConfig pFile peFile mtFile psStr stStr⟩]
    result := .ok cfgFile }

/-- `HBVMethods._make_cfg_file`, acting on the configuration dict `cfg`
(threaded explicitly; in Python it is the shared class-level dict).  The
default `initial_storage` is the Python list `[0, 0, 0, 0, 0]`, whose
elements render as `"0"`. -/
def make_cfg_core (f : ModelForcing) (cfgDir : String) (cfg : Config)
    (args : MakeCfgArgs) : CfgOutcome :=
  match args.parameters with
  | none => ⟨cfg, [], .error (.valueError paramsMissingMsg)⟩
  | some ps =>
    if ps.length ≠ 9 then
      ⟨cfg, [], .error (.valueError paramsLengthMsg)⟩
    else
      let cfg := { cfg with parameters := .vals ps }
      match args.initial_storage with
      | some st =>
        if st.length ≠ 5 then
          ⟨cfg, [], .error (.valueError storageLengthMsg)⟩
        else
          writeCfg f cfgDir { cfg with initial_storage := .vals st }
      | none =>
        writeCfg f cfgDir { cfg with initial_storage := .vals ["0", "0", "0", "0", "0"] }

/-- Whether `_make_cfg_file`'s validation accepts the keyword arguments. -/
def validArgs (args : MakeCfgArgs) : Bool :=
  match args.parameters with
  | none => false
  | some ps =>
    ps.length = 9 &&
      (match args.initial_storage with
       | none => true
       | some st => st.length = 5)

/-- The `parameters` property:
`dict(zip(HBV_PARAMS, self._config["parameters"].split(',')))` — `zip`
truncates to the shorter operand and the names are distinct, so the dict's
items are the zip.  `none` models the `AttributeError` Python would raise if
the stored value were still a list (no `.split` on `list`). -/
def parametersItems (cfg : Config) : Option (List (String × String)) :=
  match cfg.parameters with
  | .str s => some (HBV_PARAMS.zip (pySplitComma s))
  | .vals _ => none

/-- The `states` property:
`dict(zip(HBV_STATES, self._config["initial_storage"].split(',')))`. -/
def statesItems (cfg : Config) : Option (List (String × String)) :=
  match cfg.initial_storage with
  | .str s => some (HBV_STATES.zip (pySplitComma s))
  | .vals _ => none

/-! ### Instance / class-attribute model

`_config` is declared as a class-level dict on `HBVMethods`.  `_make_cfg_file`
only ever performs item assignment (`self._config["..."] = ...`), never
attribute assignment, so Python attribute lookup always resolves
`self._config` to the one class-level dict object, and every item assignment
mutates that shared object.  `World` holds that single dict; `HBVInstance`
holds the per-instance attributes the method actually uses (`self.forcing`
and `self._cfg_dir`). -/

/-- The mutable class attribute `HBVMethods._config`: one dict object shared
by every instance of the class. -/
structure World where
  class_config : Config
deriving DecidableEq, Repr

/-- Per-instance state used by `_make_cfg_file`: the forcing reference and
the configuration directory. -/
structure HBVInstance where
  forcing : ModelForcing
  cfg_dir : String
deriving DecidableEq, Repr

/-- Attribute lookup `self._config`: no instance ever shadows the class
attribute, so it resolves to the class-level dict for every instance. -/
def lookup_config (w : World) (_i : HBVInstance) : Config :=
  w.class_config

/-- `i._make_cfg_file(**args)` at the object level: runs the method body on
the shared dict and returns the world with the mutated dict together with
the call's outcome. -/
def make_cfg_file (w : World) (i : HBVInstance) (args : MakeCfgArgs) :
    World × CfgOutcome :=
  let o := make_cfg_core i.forcing i.cfg_dir (lookup_config w i) args
  (⟨o.config⟩, o)

/-- `i.parameters` read through attribute lookup on the shared dict. -/
def instanceParameters (w : World) (i : HBVInstance) :
    Option (List (String × String)) :=
  parametersItems (lookup_config w i)

/-- `i.states` read through attribute lookup on the shared dict. -/
def instanceStates (w : World) (i : HBVInstance) :
    Option (List (String × String)) :=
  statesItems (lookup_config w i)

/-! ### Forcing model (`forcing.py`)

`to_xarray` loads a 5-column numeric table (`np.loadtxt`, columns
`year month day pr pev`), builds a timestamp index from the int-truncated
date columns, drops the three date columns, and wraps `pr` / `pev` in a
dataset with fixed title/history attributes.  Numbers are modelled over `ℚ`;
the file system is passed in as the `loadtxt` function. -/

/-- One row of the forcing file, in column order `year month day pr pev`. -/
structure ForcingRow where
  year : ℚ
  month : ℚ
  day : ℚ
  pr : ℚ
  pev : ℚ
deriving DecidableEq, Repr

/-- Python `int(x)` on a number: truncation toward zero. -/
def pyIntOfRat (q : ℚ) : ℤ :=
  Int.tdiv q.num (Int.ofNat q.den)

/-- The calendar date `pd.Timestamp(f'{int(x.year)}-{int(x.month)}-{int(x.day)}')`
is built from. -/
structure PyDate where
  year : ℤ
  month : ℤ
  day : ℤ
deriving DecidableEq, Repr

/-- The row-to-index step of `to_xarray`. -/
def rowTimestamp (r : ForcingRow) : PyDate :=
  { year := pyIntOfRat r.year, month := pyIntOfRat r.month, day := pyIntOfRat r.day }

/-- The dataset `to_xarray` returns: time index named `time`, the two
retained data variables `pr` and `pev` (year/month/day are dropped), and the
two attributes. -/
structure ForcingDataset where
  time : List PyDate
  pr : List ℚ
  pev : List ℚ
  title : String
  history : String
deriving DecidableEq, Repr

/-- The fields of `HBVForcing` that `to_xarray` reads. -/
structure HBVForcing where
  directory : Option String
  forcing_file : Option String
deriving DecidableEq, Repr

/-- `forcing_file`'s declared default value. -/
def defaultForcingFile : Option String := some "forcing.txt"

/-- `HBVForcing.to_xarray`.  `loadtxt` stands for the file system read
`np.loadtxt(fn, delimiter="\t")`; it is consulted only after the None-check
on `directory` / `forcing_file` passes, so no path operation ever touches a
`None`. -/
def to_xarray (f : HBVForcing) (loadtxt : String → List ForcingRow) :
    Except PyError ForcingDataset :=
  match f.directory, f.forcing_file with
  | some d, some fn =>
    let rows := loadtxt (pathJoin d fn)
    .ok
      { time := rows.map rowTimestamp
        pr := rows.map ForcingRow.pr
        pev := rows.map ForcingRow.pev
        title := "HBV forcing data"
        history := "Created by ewatercycle_HBV.forcing.HBVForcing.to_xarray()" }
  | _, _ => .error (.valueError "Directory or forcing_file is not set")

/-! ### Helper lemmas -/

theorem numToken_list_no_comma (xs : List String)
    (hn : ∀ s ∈ xs, isNumToken s = true) (hne : xs ≠ []) :
    pySplitComma (pyJoinComma xs) = xs :=
  pySplitComma_pyJoinComma xs hne (fun s hs => isNumToken_no_comma s (hn s hs))

theorem ne_nil_of_length_eq (xs : List String) (n : Nat) (hn : n ≠ 0)
    (h : xs.length = n) : xs ≠ [] := by
  intro e
  rw [e] at h
  exact hn h.symm

theorem make_cfg_core_some_some (f : ModelForcing) (cfgDir : String)
    (cfg : Config) (ps st : List String) (hps : ps.length = 9)
    (hst : st.length = 5) :
    make_cfg_core f cfgDir cfg ⟨some ps, some st⟩ =
      writeCfg f cfgDir
        { cfg with parameters := .vals ps, initial_storage := .vals st } := by
  simp [make_cfg_core, hps, hst]

theorem make_cfg_core_some_none (f : ModelForcing) (cfgDir : String)
    (cfg : Config) (ps : List String) (hps : ps.length = 9) :
    make_cfg_core f cfgDir cfg ⟨some ps, none⟩ =
      writeCfg f cfgDir
        { cfg with parameters := .vals ps,
                   initial_storage := .vals ["0", "0", "0", "0", "0"] } := by
  simp [make_cfg_core, hps]

theorem parametersItems_writeCfg (f : ModelForcing) (cfgDir : String)
    (cfg : Config) :
    parametersItems (writeCfg f cfgDir cfg).config =
      some (HBV_PARAMS.zip (pySplitComma (joinCfgVal cfg.parameters))) := by
  simp [writeCfg, parametersItems]

theorem statesItems_writeCfg (f : ModelForcing) (cfgDir : String)
    (cfg : Config) :
    statesItems (writeCfg f cfgDir cfg).config =
      some (HBV_STATES.zip (pySplitComma (joinCfgVal cfg.initial_storage))) := by
  simp [writeCfg, statesItems]

/-! ### Concrete inputs shared by witness theorems -/

def witnessForcing : ModelForcing :=
  ⟨"/data/forcing", "pr.nc", "pev.nc", "tas.nc"⟩

def witnessParams : List String :=
  ["2", "0.5", "100", "2.5", "1.0", "3", "0.1", "0.01", "4.5"]

def witnessStorage : List String :=
  ["1", "2.5", "0", "3", "4"]

/-! ### Claims -/

/-- Claim C2: `_make_cfg_file` raises a `ValueError` (the spec's ValidationError)
when `parameters` is absent, when its length is not 9, and when
`initial_storage` is provided with length not 5; it raises no validation
failure when `parameters` has length 9 and `initial_storage` is absent or
has length 5. -/
theorem C2_validation_boundary (f : ModelForcing) (cfgDir : String)
    (cfg : Config) :
    (∀ sto, (make_cfg_core f cfgDir cfg ⟨none, sto⟩).result =
      .error (.valueError paramsMissingMsg)) ∧
    (∀ ps sto, ps.length ≠ 9 →
      (make_cfg_core f cfgDir cfg ⟨some ps, sto⟩).result =
        .error (.valueError paramsLengthMsg)) ∧
    (∀ ps st, ps.length = 9 → st.length ≠ 5 →
      (make_cfg_core f cfgDir cfg ⟨some ps, some st⟩).result =
        .error (.valueError storageLengthMsg)) ∧
    (∀ ps, ps.length = 9 →
      ∃ p, (make_cfg_core f cfgDir cfg ⟨some ps, none⟩).result = .ok p) ∧
    (∀ ps st, ps.length = 9 → st.length = 5 →
      ∃ p, (make_cfg_core f cfgDir cfg ⟨some ps, some st⟩).result = .ok p) := by
  refine ⟨fun sto => ?_, fun ps sto h9 => ?_, fun ps st h9 h5 => ?_,
    fun ps h9 => ?_, fun ps st h9 h5 => ?_⟩
  · simp [make_cfg_core]
  · cases sto <;> simp [make_cfg_core, h9]
  · simp [make_cfg_core, h9, h5]
  · exact ⟨pathJoin cfgDir "HBV_config.json",
      by rw [make_cfg_core_some_none f cfgDir cfg ps h9]; simp [writeCfg]⟩
  · exact ⟨pathJoin cfgDir "HBV_config.json",
      by rw [make_cfg_core_some_some f cfgDir cfg ps st h9 h5]; simp [writeCfg]⟩

theorem C2_validation_boundary_witness :
    (make_cfg_core witnessForcing "/cfg" initialConfig ⟨none, none⟩).result =
      .error (.valueError paramsMissingMsg) ∧
    (make_cfg_core witnessForcing "/cfg" initialConfig
      ⟨some ["1", "2", "3", "4", "5", "6", "7", "8"], none⟩).result =
      .error (.valueError paramsLengthMsg) ∧
    (make_cfg_core witnessForcing "/cfg" initialConfig
      ⟨some ["1", "2", "3", "4", "5", "6", "7", "8", "9", "10"], none⟩).result =
      .error (.valueError paramsLengthMsg) ∧
    (make_cfg_core witnessForcing "/cfg" initialConfig
      ⟨some witnessParams, some ["1", "2", "3", "4"]⟩).result =
      .error (.valueError storageLengthMsg) ∧
    (make_cfg_core witnessForcing "/cfg" initialConfig
      ⟨some witnessParams, some ["1", "2", "3", "4", "5", "6"]⟩).result =
      .error (.valueError storageLengthMsg) ∧
    (∃ p, (make_cfg_core witnessForcing "/cfg" initialConfig
      ⟨some witnessParams, none⟩).result = .ok p) ∧
    (∃ p, (make_cfg_core witnessForcing "/cfg" initialConfig
      ⟨some witnessParams, some witnessStorage⟩).result = .ok p) :=
  ⟨(C2_validation_boundary witnessForcing "/cfg" initialConfig).1 none,
   (C2_validation_boundary witnessForcing "/cfg" initialConfig).2.1
     ["1", "2", "3", "4", "5", "6", "7", "8"] none (by decide),
   (C2_validation_boundary witnessForcing "/cfg" initialConfig).2.1
     ["1", "2", "3", "4", "5", "6", "7", "8", "9", "10"] none (by decide),
   (C2_validation_boundary witnessForcing "/cfg" initialConfig).2.2.1
     witnessParams ["1", "2", "3", "4"] (by decide) (by decide),
   (C2_validation_boundary witnessForcing "/cfg" initialConfig).2.2.1
     witnessParams ["1", "2", "3", "4", "5", "6"] (by decide) (by decide),
   (C2_validation_boundary witnessForcing "/cfg" initialConfig).2.2.2.1
     witnessParams (by decide),
   (C2_validation_boundary witnessForcing "/cfg" initialConfig).2.2.2.2
     witnessParams witnessStorage (by decide) (by decide)⟩

/-- Claim C3: with a valid 9-length `parameters` vector and no `initial_storage`
argument, `_make_cfg_file` does not raise, and the `states` accessor then
yields every canonical state name mapped to the default value `"0"`
(the rendering of the substituted Python list `[0, 0, 0, 0, 0]`). -/
theorem C3_default_storage (f : ModelForcing) (cfgDir : String) (cfg : Config)
    (ps : List String) (hps : ps.length = 9) :
    ∃ p, (make_cfg_core f cfgDir cfg ⟨some ps, none⟩).result = .ok p ∧
      statesItems (make_cfg_core f cfgDir cfg ⟨some ps, none⟩).config =
        some [("Si", "0"), ("Su", "0"), ("Sf", "0"), ("Ss", "0"), ("Sp", "0")] := by
  rw [make_cfg_core_some_none f cfgDir cfg ps hps]
  refine ⟨pathJoin cfgDir "HBV_config.json", by simp [writeCfg], ?_⟩
  rw [statesItems_writeCfg]
  show some (HBV_STATES.zip
    (pySplitComma (joinCfgVal (.vals ["0", "0", "0", "0", "0"])))) = _
  decide

theorem C3_default_storage_witness :
    ∃ p, (make_cfg_core witnessForcing "/cfg" initialConfig
        ⟨some witnessParams, none⟩).result = .ok p ∧
      statesItems (make_cfg_core witnessForcing "/cfg" initialConfig
        ⟨some witnessParams, none⟩).config =
        some [("Si", "0"), ("Su", "0"), ("Sf", "0"), ("Ss", "0"), ("Sp", "0")] :=
  C3_default_storage witnessForcing "/cfg" initialConfig witnessParams (by decide)

/-- Claim C4: whenever validation rejects the arguments, `_make_cfg_file` raises
and performs no file write at all — the configuration file is written only
after all validation has succeeded. -/
theorem C4_no_write_on_failure (f : ModelForcing) (cfgDir : String)
    (cfg : Config) (args : MakeCfgArgs) (h : validArgs args = false) :
    (∃ e, (make_cfg_core f cfgDir cfg args).result = .error e) ∧
    (make_cfg_core f cfgDir cfg args).writes = [] := by
  obtain ⟨pso, sto⟩ := args
  cases pso with
  | none => simp [make_cfg_core]
  | some ps =>
    by_cases h9 : ps.length = 9
    · cases sto with
      | none => simp [validArgs, h9] at h
      | some st =>
        by_cases h5 : st.length = 5
        · simp [validArgs, h9, h5] at h
        · simp [make_cfg_core, h9, h5]
    · cases sto <;> simp [make_cfg_core, h9]

theorem C4_no_write_on_failure_witness :
    (∃ e, (make_cfg_core witnessForcing "/cfg" initialConfig
      ⟨some ["1"], some ["1", "2", "3"]⟩).result = .error e) ∧
    (make_cfg_core witnessForcing "/cfg" initialConfig
      ⟨some ["1"], some ["1", "2", "3"]⟩).writes = [] :=
  C4_no_write_on_failure witnessForcing "/cfg" initialConfig
    ⟨some ["1"], some ["1", "2", "3"]⟩ (by decide)

/-- Claim C10: on the error path where `initial_storage` has the wrong length, the
configuration dict's `parameters` entry has already been overwritten with
the newly supplied list when the error is raised. -/
theorem C10_mutation_before_storage_error (f : ModelForcing) (cfgDir : String)
    (cfg : Config) (ps st : List String) (hps : ps.length = 9)
    (hst : st.length ≠ 5) :
    (make_cfg_core f cfgDir cfg ⟨some ps, some st⟩).config.parameters =
      CfgVal.vals ps ∧
    (make_cfg_core f cfgDir cfg ⟨some ps, some st⟩).result =
      .error (.valueError storageLengthMsg) := by
  simp [make_cfg_core, hps, hst]

theorem C10_mutation_before_storage_error_witness :
    (make_cfg_core witnessForcing "/cfg" initialConfig
      ⟨some witnessParams, some ["1", "2"]⟩).config.parameters =
      CfgVal.vals witnessParams ∧
    (make_cfg_core witnessForcing "/cfg" initialConfig
      ⟨some witnessParams, some ["1", "2"]⟩).result =
      .error (.valueError storageLengthMsg) :=
  C10_mutation_before_storage_error witnessForcing "/cfg" initialConfig
    witnessParams ["1", "2"] (by decide) (by decide)

/-- Round trip at the configuration level, shared by the round-trip and
shared-state claims: a successful call stores comma-joined strings whose
accessor re-split recovers the input vectors. -/
theorem roundtrip_core (f : ModelForcing) (cfgDir : String) (cfg : Config)
    (ps st : List String) (hps : ps.length = 9) (hst : st.length = 5)
    (hpn : ∀ s ∈ ps, isNumToken s = true)
    (hsn : ∀ s ∈ st, isNumToken s = true) :
    parametersItems (make_cfg_core f cfgDir cfg ⟨some ps, some st⟩).config =
      some (HBV_PARAMS.zip ps) ∧
    statesItems (make_cfg_core f cfgDir cfg ⟨some ps, some st⟩).config =
      some (HBV_STATES.zip st) := by
  rw [make_cfg_core_some_some f cfgDir cfg ps st hps hst]
  constructor
  · rw [parametersItems_writeCfg]
    show some (HBV_PARAMS.zip (pySplitComma (joinCfgVal (.vals ps)))) = _
    rw [show joinCfgVal (CfgVal.vals ps) = pyJoinComma ps from rfl]
    rw [numToken_list_no_comma ps hpn (ne_nil_of_length_eq ps 9 (by decide) hps)]
  · rw [statesItems_writeCfg]
    show some (HBV_STATES.zip (pySplitComma (joinCfgVal (.vals st)))) = _
    rw [show joinCfgVal (CfgVal.vals st) = pyJoinComma st from rfl]
    rw [numToken_list_no_comma st hsn (ne_nil_of_length_eq st 5 (by decide) hst)]

/-- Claim C1: for every 9-vector of parameter values and 5-vector of storage
values (given by their decimal renderings), `_make_cfg_file` succeeds and
the `parameters` / `states` accessors return the canonical names zipped, in
order, with exactly the original values. -/
theorem C1_accessor_roundtrip (f : ModelForcing) (cfgDir : String)
    (cfg : Config) (ps st : List String) (hps : ps.length = 9)
    (hst : st.length = 5) (hpn : ∀ s ∈ ps, isNumToken s = true)
    (hsn : ∀ s ∈ st, isNumToken s = true) :
    ∃ p, (make_cfg_core f cfgDir cfg ⟨some ps, some st⟩).result = .ok p ∧
      parametersItems (make_cfg_core f cfgDir cfg ⟨some ps, some st⟩).config =
        some (HBV_PARAMS.zip ps) ∧
      statesItems (make_cfg_core f cfgDir cfg ⟨some ps, some st⟩).config =
        some (HBV_STATES.zip st) := by
  obtain ⟨h1, h2⟩ := roundtrip_core f cfgDir cfg ps st hps hst hpn hsn
  refine ⟨pathJoin cfgDir "HBV_config.json", ?_, h1, h2⟩
  rw [make_cfg_core_some_some f cfgDir cfg ps st hps hst]
  simp [writeCfg]

theorem C1_accessor_roundtrip_witness :
    ∃ p, (make_cfg_core witnessForcing "/cfg" initialConfig
        ⟨some witnessParams, some witnessStorage⟩).result = .ok p ∧
      parametersItems (make_cfg_core witnessForcing "/cfg" initialConfig
        ⟨some witnessParams, some witnessStorage⟩).config =
        some (HBV_PARAMS.zip witnessParams) ∧
      statesItems (make_cfg_core witnessForcing "/cfg" initialConfig
        ⟨some witnessParams, some witnessStorage⟩).config =
        some (HBV_STATES.zip witnessStorage) :=
  C1_accessor_roundtrip witnessForcing "/cfg" initialConfig witnessParams
    witnessStorage (by decide) (by decide) (by decide) (by decide)

/-- Claim C8: every successful call writes exactly one file, named
`HBV_config.json` inside the caller-provided configuration directory, whose
contents are the 4-space-indented JSON object with the five documented keys
(`jsonDumpConfig`), in which the `parameters` value is a comma-joined string
re-splitting into exactly 9 numeric tokens and the `initial_storage` value
one re-splitting into exactly 5 numeric tokens — also when the storage
default is substituted. -/
theorem C8_written_file_shape (f : ModelForcing) (cfgDir : String)
    (cfg : Config) (ps : List String) (sto : Option (List String))
    (hps : ps.length = 9) (hpn : ∀ s ∈ ps, isNumToken s = true)
    (hsto : ∀ st, sto = some st →
      st.length = 5 ∧ ∀ s ∈ st, isNumToken s = true) :
    ∃ stl : List String,
      (make_cfg_core f cfgDir cfg ⟨some ps, sto⟩).writes =
        [⟨pathJoin cfgDir "HBV_config.json",
          jsonDumpConfig (pathJoin f.directory f.pr)
            (pathJoin f.directory f.evspsblpot) (pathJoin f.directory f.tas)
            (pyJoinComma ps) (pyJoinComma stl)⟩] ∧
      pySplitComma (pyJoinComma ps) = ps ∧ ps.length = 9 ∧
      (∀ t ∈ ps, isNumToken t = true) ∧
      pySplitComma (pyJoinComma stl) = stl ∧ stl.length = 5 ∧
      (∀ t ∈ stl, isNumToken t = true) := by
  have hpsplit := numToken_list_no_comma ps hpn
    (ne_nil_of_length_eq ps 9 (by decide) hps)
  cases sto with
  | none =>
    refine ⟨["0", "0", "0", "0", "0"], ?_, hpsplit, hps, hpn,
      by decide, by decide, by decide⟩
    rw [make_cfg_core_some_none f cfgDir cfg ps hps]
    simp [writeCfg, joinCfgVal]
  | some st =>
    obtain ⟨h5, hsn⟩ := hsto st rfl
    refine ⟨st, ?_,  hpsplit, hps, hpn,
      numToken_list_no_comma st hsn (ne_nil_of_length_eq st 5 (by decide) h5),
      h5, hsn⟩
    rw [make_cfg_core_some_some f cfgDir cfg ps st hps h5]
    simp [writeCfg, joinCfgVal]

theorem C8_written_file_shape_witness :
    ∃ stl : List String,
      (make_cfg_core witnessForcing "/cfg" initialConfig
        ⟨some witnessParams, none⟩).writes =
        [⟨pathJoin "/cfg" "HBV_config.json",
          jsonDumpConfig (pathJoin witnessForcing.directory witnessForcing.pr)
            (pathJoin witnessForcing.directory witnessForcing.evspsblpot)
            (pathJoin witnessForcing.directory witnessForcing.tas)
            (pyJoinComma witnessParams) (pyJoinComma stl)⟩] ∧
      pySplitComma (pyJoinComma witnessParams) = witnessParams ∧
      witnessParams.length = 9 ∧
      (∀ t ∈ witnessParams, isNumToken t = true) ∧
      pySplitComma (pyJoinComma stl) = stl ∧ stl.length = 5 ∧
      (∀ t ∈ stl, isNumToken t = true) :=
  C8_written_file_shape witnessForcing "/cfg" initialConfig witnessParams none
    (by decide) (by decide) (fun st h => by simp at h)

/-- Claim C9: `_config` is one class-level dict shared by every instance:
after a successful `_make_cfg_file` call on instance `a`, the `parameters`
and `states` accessors of any other instance `b` return `a`'s serialized
values. -/
theorem C9_shared_class_config (w : World) (a b : HBVInstance)
    (ps st : List String) (hps : ps.length = 9) (hst : st.length = 5)
    (hpn : ∀ s ∈ ps, isNumToken s = true)
    (hsn : ∀ s ∈ st, isNumToken s = true) :
    instanceParameters (make_cfg_file w a ⟨some ps, some st⟩).1 b =
      some (HBV_PARAMS.zip ps) ∧
    instanceStates (make_cfg_file w a ⟨some ps, some st⟩).1 b =
      some (HBV_STATES.zip st) := by
  have h := roundtrip_core a.forcing a.cfg_dir w.class_config ps st hps hst hpn hsn
  simpa [make_cfg_file, instanceParameters, instanceStates, lookup_config] using h

theorem C9_shared_class_config_witness :
    instanceParameters
      (make_cfg_file ⟨initialConfig⟩ ⟨witnessForcing, "/cfg/a"⟩
        ⟨some witnessParams, some witnessStorage⟩).1
      ⟨witnessForcing, "/cfg/b"⟩ = some (HBV_PARAMS.zip witnessParams) ∧
    instanceStates
      (make_cfg_file ⟨initialConfig⟩ ⟨witnessForcing, "/cfg/a"⟩
        ⟨some witnessParams, some witnessStorage⟩).1
      ⟨witnessForcing, "/cfg/b"⟩ = some (HBV_STATES.zip witnessStorage) :=
  C9_shared_class_config ⟨initialConfig⟩ ⟨witnessForcing, "/cfg/a"⟩
    ⟨witnessForcing, "/cfg/b"⟩ witnessParams witnessStorage
    (by decide) (by decide) (by decide) (by decide)

/-- Claim C5, counterexample: before any configuration is built, the
`parameters` accessor does NOT map each of the 9 canonical names to the
empty string — `''.split(',') == ['']` has one element and `zip` truncates,
so only the first name appears. -/
theorem C5_counterexample :
    parametersItems initialConfig ≠
      some (HBV_PARAMS.map fun n => (n, "")) := by
  decide

/-- Claim C5, amended: before any configuration is built, splitting the
empty stored string yields the single-element list `[""]`, so the accessors
return a single-entry mapping — only the first canonical name (`Imax`,
respectively `Si`) mapped to the empty string. -/
theorem C5_single_entry_mapping :
    pySplitComma "" = [""] ∧
    parametersItems initialConfig = some [("Imax", "")] ∧
    statesItems initialConfig = some [("Si", "")] := by
  decide

/-- Claim C6: on a forcing file with rows `[2000,1,1,1.5,0.3]` and
`[2000,1,2,0.0,0.5]`, `to_xarray` produces a dataset whose time index is
exactly 2000-01-01 and 2000-01-02, with data variables `pr = [1.5, 0.0]`
and `pev = [0.3, 0.5]` (the year/month/day columns are dropped: the dataset
carries no other data variables). -/
theorem C6_two_row_dataset :
    to_xarray ⟨some "/forcing", some "forcing.txt"⟩
      (fun _ => [⟨2000, 1, 1, 1.5, 0.3⟩, ⟨2000, 1, 2, 0, 0.5⟩]) =
    .ok
      { time := [⟨2000, 1, 1⟩, ⟨2000, 1, 2⟩]
        pr := [1.5, 0]
        pev := [0.3, 0.5]
        title := "HBV forcing data"
        history := "Created by ewatercycle_HBV.forcing.HBVForcing.to_xarray()" } :=
  rfl

/-- Claim C7: whenever the directory or the forcing file name is unset,
`to_xarray` raises the documented configuration error (a controlled
`ValueError` with a fixed message) before any path operation can touch the
unset value. -/
theorem C7_unset_raises (f : HBVForcing) (loadtxt : String → List ForcingRow)
    (h : f.directory = none ∨ f.forcing_file = none) :
    to_xarray f loadtxt =
      .error (.valueError "Directory or forcing_file is not set") := by
  obtain ⟨d, fn⟩ := f
  cases d with
  | none => cases fn <;> rfl
  | some dv =>
    cases fn with
    | none => rfl
    | some fv => simp at h

theorem C7_unset_raises_witness :
    to_xarray ⟨none, defaultForcingFile⟩ (fun _ => []) =
      .error (.valueError "Directory or forcing_file is not set") :=
  C7_unset_raises ⟨none, defaultForcingFile⟩ (fun _ => []) (Or.inl rfl)
